import Mathlib

/-!
Verification of the System_Health_Dashboard backend core.

Shallow embedding of `src/backend/app/main.py` (ring buffer, sampler,
query endpoint, websocket stream loop) and of the pydantic snapshot
contract in `src/backend/app/models/system_health.py`.

Conventions:
* Python `float` fields are modelled as `ℚ` (validation only compares
  against literal bounds, and those comparisons are exact).
* Python `int` fields are modelled as `ℤ`, `datetime` as `ℤ` (an epoch
  stamp; no constraint in the source inspects its structure).
* A pydantic model is embedded as a structure holding the raw field
  values together with a boolean validator that checks exactly the
  `Field(ge=..., le=...)` bounds and `Literal[...]` memberships the
  source declares; pydantic runs those checks at construction time, so
  "the model accepts the candidate" is "the validator returns true".
-/

namespace SystemHealthDashboard

/-! ## The ring buffer: `cpu_buf = deque(maxlen=900)` (main.py line 17)

Python `deque(maxlen=cap)` append semantics: the new element is pushed on
the right and, if the deque would exceed `cap` elements, elements are
discarded from the left.  For a buffer only ever fed by `append` this is:
drop from the front whatever exceeds the capacity. -/

/-- Python `deque(maxlen := cap).append x` on a deque currently holding `buf`. -/
def dequeAppend (cap : Nat) (buf : List α) (x : α) : List α :=
  List.drop (buf.length + 1 - cap) (buf ++ [x])

/-- Capacity of `cpu_buf` in main.py: `deque(maxlen=900)  # 15 minutes @1hz`. -/
def bufferCapacity : Nat := 900

/-- The buffer contents after a sequence of appends starting from empty
(the process-start state of `cpu_buf`). -/
def bufferAfterAppends (cap : Nat) (xs : List α) : List α :=
  xs.foldl (dequeAppend cap) []

/-- One sample dict built by `sampler()` in main.py:
`{"t": time.time(), "total": psutil.cpu_percent(...), "per_core": psutil.cpu_percent(..., percpu=True)}`. -/
structure CpuSample where
  t : ℚ
  total : ℚ
  per_core : List ℚ
  deriving DecidableEq

/-- One cycle of `sampler()` (main.py lines 19-27): the collected sample is
appended to `cpu_buf` directly; no validation of any kind is performed
between collection and append. -/
def samplerCycle (buf : List CpuSample) (s : CpuSample) : List CpuSample :=
  dequeAppend bufferCapacity buf s

/-- Endpoint `GET /metrics/now` (main.py lines 37-39): `cpu_buf[-1] if cpu_buf else None`. -/
def metrics_now (buf : List CpuSample) : Option CpuSample :=
  buf.getLast?

/-! ## The websocket stream loop (main.py lines 41-49)

```
last_len = 0
while True:
    if len(cpu_buf) != last_len and cpu_buf:
        await ws.send_json({"cpu": cpu_buf[-1]})
        last_len = len(cpu_buf)
    await asyncio.sleep(0.25)
```

The loop and the sampler interleave on the single-threaded asyncio
scheduler; an execution is an arbitrary interleaving of sampler appends
and subscriber poll ticks.  Snapshots are identified by their append
index (the sampler's `t = time.time()` stamps are non-decreasing in
append order, so append order is timestamp order). -/

/-- A scheduler event: one sampler append of the next snapshot, or one
poll-tick of the subscriber's stream loop. -/
inductive SysEvent where
  | append : SysEvent
  | tick : SysEvent
  deriving DecidableEq

/-- Joint state of `cpu_buf`, the sampler's append counter and one
subscriber of `/metrics/stream`: its `last_len` variable and the sequence
of snapshots sent to it so far (oldest first). -/
structure SysState where
  buf : List Nat
  ctr : Nat
  lastLen : Nat
  delivered : List Nat
  deriving DecidableEq

/-- One interleaving step: `append` runs one sampler cycle (the appended
snapshot is tagged with its append index), `tick` runs one iteration of
the stream loop body. -/
def sysStep (cap : Nat) (s : SysState) : SysEvent → SysState
  | SysEvent.append =>
      { s with buf := dequeAppend cap s.buf s.ctr, ctr := s.ctr + 1 }
  | SysEvent.tick =>
      if s.buf.length ≠ s.lastLen ∧ s.buf ≠ [] then
        { s with delivered := s.delivered ++ s.buf.getLast?.toList,
                 lastLen := s.buf.length }
      else s

/-- Run an interleaving from process start: empty buffer, `last_len = 0`,
nothing delivered. -/
def sysRun (cap : Nat) (es : List SysEvent) : SysState :=
  es.foldl (sysStep cap) ⟨[], 0, 0, []⟩

/-! ## Basic buffer lemmas -/

theorem length_dequeAppend (cap : Nat) (buf : List α) (x : α) :
    (dequeAppend cap buf x).length = min (buf.length + 1) cap := by
  simp [dequeAppend]
  omega

theorem getLast?_dequeAppend (cap : Nat) (hcap : 0 < cap) (buf : List α) (x : α) :
    (dequeAppend cap buf x).getLast? = some x := by
  unfold dequeAppend
  rw [List.drop_append_of_le_length (by omega)]
  exact List.getLast?_concat _

theorem dequeAppend_at_capacity (cap : Nat) (hcap : 0 < cap) (buf : List α) (x : α)
    (h : buf.length = cap) : dequeAppend cap buf x = buf.tail ++ [x] := by
  unfold dequeAppend
  have h1 : buf.length + 1 - cap = 1 := by omega
  rw [h1, List.drop_append_of_le_length (by omega), List.drop_one]

theorem bufferAfterAppends_concat (cap : Nat) (xs : List α) (x : α) :
    bufferAfterAppends cap (xs ++ [x]) = dequeAppend cap (bufferAfterAppends cap xs) x := by
  simp [bufferAfterAppends, List.foldl_append]

theorem bufferAfterAppends_eq_drop (cap : Nat) (xs : List α) :
    bufferAfterAppends cap xs = xs.drop (xs.length - cap) := by
  induction xs using List.reverseRecOn with
  | nil => simp [bufferAfterAppends]
  | append_singleton xs x ih =>
      rw [bufferAfterAppends_concat, ih]
      unfold dequeAppend
      rw [List.length_drop]
      simp only [List.length_append, List.length_singleton]
      rcases Nat.eq_zero_or_pos cap with hc0 | hcpos
      · subst hc0
        have h1 : xs.length - (xs.length - 0) + 1 - 0 = 1 := by omega
        have h2 : xs.length - 0 = xs.length := rfl
        rw [h1, h2, List.drop_length]
        simp
      · rcases le_or_lt cap xs.length with hle | hlt
        · have h1 : xs.length - (xs.length - cap) + 1 - cap = 1 := by omega
          rw [h1, List.drop_append_of_le_length (by rw [List.length_drop]; omega),
              List.drop_append_of_le_length (by omega), List.drop_drop]
          congr 2
          omega
        · have h1 : xs.length - cap = 0 := by omega
          have h2 : xs.length + 1 - cap = 0 := by omega
          rw [h1, h2]
          have h3 : xs.length - 0 + 1 - cap = 0 := by omega
          rw [h3]
          simp

theorem length_bufferAfterAppends (cap : Nat) (xs : List α) :
    (bufferAfterAppends cap xs).length = min xs.length cap := by
  rw [bufferAfterAppends_eq_drop, List.length_drop]
  omega

theorem dequeAppend_cap_zero (buf : List α) (x : α) : dequeAppend 0 buf x = [] := by
  unfold dequeAppend
  apply List.drop_eq_nil_of_le
  simp

/-! ## Stream-loop lemmas -/

theorem sysStep_tick_of_len_eq (cap : Nat) (s : SysState) (h : s.buf.length = s.lastLen) :
    sysStep cap s SysEvent.tick = s := by
  simp [sysStep, h]

theorem foldl_ticks_fixed (cap n : Nat) (s : SysState) (h : s.buf.length = s.lastLen) :
    (List.replicate n SysEvent.tick).foldl (sysStep cap) s = s := by
  induction n with
  | zero => rfl
  | succ n ih =>
      rw [List.replicate_succ, List.foldl_cons, sysStep_tick_of_len_eq cap s h]
      exact ih

/-- The streaming invariant: the buffer's last element is the most recent
append, every delivered snapshot predates the append counter, and the
delivered sequence is in non-decreasing append order. -/
def SysInv (s : SysState) : Prop :=
  (s.buf ≠ [] → s.buf.getLast? = some (s.ctr - 1) ∧ 0 < s.ctr)
  ∧ (∀ d ∈ s.delivered, d < s.ctr)
  ∧ List.Chain' (· ≤ ·) s.delivered

theorem sysStep_preserves_inv (cap : Nat) (s : SysState) (e : SysEvent)
    (h : SysInv s) : SysInv (sysStep cap s e) := by
  obtain ⟨hlast, hlt, hchain⟩ := h
  cases e with
  | append =>
      simp only [sysStep]
      refine ⟨fun hne => ?_, fun d hd => Nat.lt_succ_of_lt (hlt d hd), hchain⟩
      rcases Nat.eq_zero_or_pos cap with hc0 | hcpos
      · subst hc0
        exact absurd (dequeAppend_cap_zero s.buf s.ctr) hne
      · rw [getLast?_dequeAppend cap hcpos]
        exact ⟨by simp, Nat.succ_pos _⟩
  | tick =>
      simp only [sysStep]
      split
      case isTrue hcond =>
        obtain ⟨hgl, hctr⟩ := hlast hcond.2
        refine ⟨fun hne => hlast hne, fun d hd => ?_, ?_⟩
        · dsimp only at hd ⊢
          rw [hgl] at hd
          simp only [Option.toList_some, List.mem_append, List.mem_singleton] at hd
          rcases hd with hd | hd
          · exact hlt d hd
          · subst hd; omega
        · dsimp only
          rw [hgl]
          apply List.Chain'.append hchain (List.chain'_singleton _)
          intro a ha b hb
          simp only [Option.toList_some, List.head?_cons, Option.mem_def,
            Option.some.injEq] at hb
          subst hb
          have ham : a ∈ s.delivered := by
            rcases List.getLast?_eq_some_iff.mp ha with ⟨l, hl⟩
            rw [hl]
            simp
          have := hlt a ham
          omega
      case isFalse hcond =>
        exact ⟨hlast, hlt, hchain⟩

theorem foldl_preserves_inv (cap : Nat) (es : List SysEvent) (s : SysState)
    (h : SysInv s) : SysInv (es.foldl (sysStep cap) s) := by
  induction es generalizing s with
  | nil => exact h
  | cons e es ih => exact ih _ (sysStep_preserves_inv cap s e h)

theorem sysInv_init : SysInv ⟨[], 0, 0, []⟩ :=
  ⟨fun h => absurd rfl h, fun d hd => absurd hd (List.not_mem_nil d), List.chain'_nil⟩

/-! ## Claim theorems for the buffer, sampler, query and stream loop -/

/-- C1: the spec promises that a subscriber's next poll tick detects every
buffer change and that every subscriber eventually observes the most
recently appended snapshot, *including when the buffer is already at
capacity*.  The code's change marker is `len(cpu_buf)`, which no longer
changes once the deque is full, so a subscriber that is up to date at
capacity (`last_len = 900`) never receives any later snapshot: after a
further append, no number of poll ticks delivers anything, even though
the buffer's latest entry did change to the newly appended snapshot. -/
theorem stream_silent_at_capacity (s : SysState) (n : Nat)
    (hlen : s.buf.length = bufferCapacity) (hmark : s.lastLen = bufferCapacity) :
    ((List.replicate n SysEvent.tick).foldl (sysStep bufferCapacity)
        (sysStep bufferCapacity s SysEvent.append)).delivered = s.delivered
    ∧ (sysStep bufferCapacity s SysEvent.append).buf.getLast? = some s.ctr := by
  have hbuf : (sysStep bufferCapacity s SysEvent.append).buf.length
      = (sysStep bufferCapacity s SysEvent.append).lastLen := by
    simp [sysStep, length_dequeAppend, hlen, hmark, bufferCapacity]
  constructor
  · rw [foldl_ticks_fixed _ n _ hbuf]
    simp [sysStep]
  · simp only [sysStep]
    exact getLast?_dequeAppend _ (by norm_num [bufferCapacity]) _ _

theorem stream_silent_at_capacity_witness :
    ((List.replicate 3 SysEvent.tick).foldl (sysStep bufferCapacity)
        (sysStep bufferCapacity ⟨List.replicate 900 0, 900, 900, []⟩ SysEvent.append)).delivered = []
    ∧ (sysStep bufferCapacity ⟨List.replicate 900 0, 900, 900, []⟩ SysEvent.append).buf.getLast?
        = some 900 :=
  stream_silent_at_capacity ⟨List.replicate 900 0, 900, 900, []⟩ 3
    (by rw [List.length_replicate]; rfl) rfl

/-- C2: the spec describes the broadcaster's change marker as a version
counter that strictly increases on every append.  The marker the stream
loop actually reads (main.py line 46) is `len(cpu_buf)`, and once the
buffer is at capacity an append leaves it unchanged: it does not strictly
increase. -/
theorem change_marker_stuck_at_capacity (buf : List CpuSample) (x : CpuSample)
    (h : buf.length = bufferCapacity) :
    (dequeAppend bufferCapacity buf x).length = buf.length
    ∧ ¬ buf.length < (dequeAppend bufferCapacity buf x).length := by
  have heq : (dequeAppend bufferCapacity buf x).length = buf.length := by
    rw [length_dequeAppend, h]
    simp [bufferCapacity]
  exact ⟨heq, by omega⟩

theorem change_marker_stuck_at_capacity_witness :
    (dequeAppend bufferCapacity (List.replicate 900 (⟨0, 0, []⟩ : CpuSample)) ⟨0, 0, []⟩).length
      = (List.replicate 900 (⟨0, 0, []⟩ : CpuSample)).length :=
  (change_marker_stuck_at_capacity _ _ (by rw [List.length_replicate]; rfl)).1

/-- C3: FIFO eviction law.  For every capacity and every append sequence
longer than the capacity, the buffer after all appends holds exactly the
last `cap` appended entries in append order, its length is exactly the
capacity, and an append onto a full buffer of positive capacity drops
exactly the oldest entry before inserting the new one at the newest end. -/
theorem ringBuffer_fifo_eviction (cap : Nat) (xs : List α) (hM : cap < xs.length) :
    bufferAfterAppends cap xs = xs.drop (xs.length - cap)
    ∧ (bufferAfterAppends cap xs).length = cap
    ∧ ∀ (buf : List α) (x : α), buf.length = cap → 0 < cap →
        dequeAppend cap buf x = buf.tail ++ [x] := by
  refine ⟨bufferAfterAppends_eq_drop cap xs, ?_,
    fun buf x hb hc => dequeAppend_at_capacity cap hc buf x hb⟩
  rw [length_bufferAfterAppends]
  omega

theorem ringBuffer_fifo_eviction_witness :
    3 < ([10, 20, 30, 40] : List Nat).length
    ∧ bufferAfterAppends 3 ([10, 20, 30, 40] : List Nat) = [20, 30, 40] := by
  refine ⟨by decide, ?_⟩
  have h := (ringBuffer_fifo_eviction 3 ([10, 20, 30, 40] : List Nat) (by decide)).1
  simpa using h

/-- C4: `GET /metrics/now` returns `None` (not an error) when nothing was
ever appended, and after any non-empty append sequence returns exactly
the most recently appended entry. -/
theorem metrics_now_law :
    metrics_now ([] : List CpuSample) = none
    ∧ ∀ (xs : List CpuSample) (x : CpuSample),
        metrics_now (bufferAfterAppends bufferCapacity (xs ++ [x])) = some x := by
  refine ⟨rfl, fun xs x => ?_⟩
  unfold metrics_now
  rw [bufferAfterAppends_concat]
  exact getLast?_dequeAppend _ (by norm_num [bufferCapacity]) _ _

/-- C7: any one subscriber's delivered sequence is monotone with respect
to buffer append order: over every interleaving of sampler appends and
that subscriber's poll ticks, the append indices of the snapshots it is
sent are non-decreasing (it never receives a snapshot appended earlier
than one it already received). -/
theorem stream_delivery_monotone (es : List SysEvent) :
    List.Chain' (· ≤ ·) (sysRun bufferCapacity es).delivered :=
  (foldl_preserves_inv bufferCapacity es _ sysInv_init).2.2

/-- Modelled from the spec: the snapshot contract's percentage invariant
(spec §3, mirrored by `usage_total_pct`/`usage_pct` bounds in
system_health.py) applied to the raw sample `sampler()` collects: the
total and per-core CPU readings are percentages and must lie in [0,100].
main.py contains no validation code, so the contract side of claim C9 is
taken from these constraints. -/
def cpuSampleWithinContract (s : CpuSample) : Bool :=
  decide (0 ≤ s.total ∧ s.total ≤ 100)
  && s.per_core.all fun v => decide (0 ≤ v ∧ v ≤ 100)

/-- C9 counterexample: the sampler appends the collected candidate
directly — a sample whose percentage readings violate the contract is
still appended and retained, so it is not the case that every retained
entry has passed validation. -/
theorem sampler_no_validation_counterexample :
    cpuSampleWithinContract ⟨0, 150, [50]⟩ = false
    ∧ samplerCycle [] ⟨0, 150, [50]⟩ = [⟨0, 150, [50]⟩] := by
  constructor
  · decide
  · decide

/-- C9 (amended): `sampler()` performs no validation at all: every cycle
appends the collected candidate unconditionally, and the appended entry
is exactly the raw collected sample. -/
theorem sampler_appends_every_candidate (buf : List CpuSample) (r : CpuSample) :
    (samplerCycle buf r).getLast? = some r := by
  unfold samplerCycle
  exact getLast?_dequeAppend _ (by norm_num [bufferCapacity]) _ _

/-- C10: after `k` appends since process start the buffer length is
`min k 900`; it never exceeds the capacity 900, and appending once more
moves the length to `min (k+1) 900` (so at capacity it is unchanged). -/
theorem cpu_buf_length_law (xs : List CpuSample) (x : CpuSample) :
    (bufferAfterAppends bufferCapacity xs).length = min xs.length 900
    ∧ (bufferAfterAppends bufferCapacity xs).length ≤ 900
    ∧ (bufferAfterAppends bufferCapacity (xs ++ [x])).length = min (xs.length + 1) 900 := by
  refine ⟨?_, ?_, ?_⟩ <;>
    simp only [length_bufferAfterAppends, bufferCapacity, List.length_append,
      List.length_singleton]
  all_goals omega

/-! ## The snapshot contract: `src/backend/app/models/system_health.py`

Each pydantic class becomes a structure of raw field values plus a
boolean validator checking exactly the declared `Field` bounds and
`Literal` memberships.  `Literal["a", "b", ...]` fields are modelled as
`String` fields whose validator checks membership in the corresponding
closed value list — that is precisely the check pydantic performs.
Default values are carried over from the source (`default_factory=
datetime.now` stamps are modelled as a fixed default `0`: no constraint
inspects them). -/

/-- Source: `Severity = Literal["info", "warning", "error", "critical"]`. -/
def severityValues : List String := ["info", "warning", "error", "critical"]

/-- Source: `ServiceState = Literal["running", "stopped", "paused", "failed", "unknown"]`. -/
def serviceStateValues : List String := ["running", "stopped", "paused", "failed", "unknown"]

/-- Source: `FirewallState = Literal["enabled", "disabled", "unknown"]`. -/
def firewallStateValues : List String := ["enabled", "disabled", "unknown"]

/-- Source: `AVState = Literal["healthy", "out_of_date", "disabled", "unknown"]`. -/
def avStateValues : List String := ["healthy", "out_of_date", "disabled", "unknown"]

/-- Source: `OSType = Literal["windows", "linux", "macos", "bsd", "unknown"]`. -/
def osTypeValues : List String := ["windows", "linux", "macos", "bsd", "unknown"]

/-- Source: `IFaceType = Literal["ethernet", "wifi", "loopback", "virtual", "cellular", "unknown"]`. -/
def ifaceTypeValues : List String :=
  ["ethernet", "wifi", "loopback", "virtual", "cellular", "unknown"]

/-- Source: `Protocol = Literal["tcp", "udp", "icmp", "other"]`. -/
def protocolValues : List String := ["tcp", "udp", "icmp", "other"]

/-- Source: `FilesystemType = Literal["ntfs", "fat32", "exfat", "ext4", "xfs", "apfs", "btrfs", "zfs", "other"]`. -/
def filesystemTypeValues : List String :=
  ["ntfs", "fat32", "exfat", "ext4", "xfs", "apfs", "btrfs", "zfs", "other"]

/-- Inline literal of `CPUThrottleStatus.reason`. -/
def throttleReasonValues : List String := ["thermal", "power", "current", "other"]

/-- Inline literal of `PressureStatus.instant`. -/
def pressureInstantValues : List String := ["normal", "elevated", "critical"]

/-- Inline literal of `NetworkInterface.duplex`. -/
def duplexValues : List String := ["full", "half", "unknown"]

/-- Inline literal of `CrashRecord.type`. -/
def crashTypeValues : List String := ["app_crash", "driver_fault", "kernal_panic", "bsod", "other"]

/-- Inline literal of `EndpointHealth.status`. -/
def endpointStatusValues : List String := ["up", "degraded", "down", "unknown"]

/-- Inline literal of `Alert.scope`. -/
def alertScopeValues : List String :=
  ["cpu", "ram", "storage", "network", "hardware", "gpu",
   "processes", "services", "boot", "logs", "crash",
   "security", "virtualization", "remote", "system"]

/-- Source `class Percent`: a percentage constrained to 0-100. -/
structure Percent where
  value : ℚ

def Percent.valid (p : Percent) : Bool :=
  decide (0 ≤ p.value) && decide (p.value ≤ 100)

/-! ### CPU panel -/

structure CPUCoreUsage where
  core_index : ℤ
  usage_pct : ℚ

def CPUCoreUsage.valid (u : CPUCoreUsage) : Bool :=
  decide (0 ≤ u.core_index) && decide (0 ≤ u.usage_pct) && decide (u.usage_pct ≤ 100)

structure CPUFrequency where
  current_mhz : Option ℚ := none
  min_mhz : Option ℚ := none
  max_mhz : Option ℚ := none
  turbo_mhz : Option ℚ := none

def CPUFrequency.valid (f : CPUFrequency) : Bool :=
  f.current_mhz.all (fun v => decide (0 ≤ v))
  && f.min_mhz.all (fun v => decide (0 ≤ v))
  && f.max_mhz.all (fun v => decide (0 ≤ v))
  && f.turbo_mhz.all (fun v => decide (0 ≤ v))

structure CPUTemperature where
  package_c : Option ℚ := none
  per_core_c : Option (List (Option ℚ)) := none
  hotspot_c : Option ℚ := none

/-- No field of `CPUTemperature` carries a constraint. -/
def CPUTemperature.valid (_ : CPUTemperature) : Bool := true

structure CPUThrottleStatus where
  is_throttling : Bool
  reason : Option String := none

def CPUThrottleStatus.valid (t : CPUThrottleStatus) : Bool :=
  t.reason.all fun r => throttleReasonValues.contains r

structure CPUPower where
  watts : Option ℚ := none
  voltage_v : Option ℚ := none

def CPUPower.valid (p : CPUPower) : Bool :=
  p.watts.all (fun v => decide (0 ≤ v)) && p.voltage_v.all (fun v => decide (0 ≤ v))

structure CPULoadAverages where
  over_1m : Option ℚ := none
  over_5m : Option ℚ := none
  over_15m : Option ℚ := none

def CPULoadAverages.valid (l : CPULoadAverages) : Bool :=
  l.over_1m.all (fun v => decide (0 ≤ v))
  && l.over_5m.all (fun v => decide (0 ≤ v))
  && l.over_15m.all (fun v => decide (0 ≤ v))

structure TopCPUProcess where
  pid : ℤ
  name : String
  cpu_pct : ℚ
  user_time_s : Option ℚ := none
  system_time_s : Option ℚ := none

def TopCPUProcess.valid (p : TopCPUProcess) : Bool :=
  decide (0 ≤ p.cpu_pct) && decide (p.cpu_pct ≤ 100)
  && p.user_time_s.all (fun v => decide (0 ≤ v))
  && p.system_time_s.all (fun v => decide (0 ≤ v))

/-- Source `class CPUModel`: the aggregate CPU panel (field names as in the
source, including the `locial_cores` spelling). -/
structure CPUModel where
  timestamp : ℤ := 0
  sample_interval_s : Option ℚ := none
  physical_cores : Option ℤ := none
  locial_cores : Option ℤ := none
  usage_total_pct : ℚ
  per_core : Option (List CPUCoreUsage) := none
  frequency : Option CPUFrequency := none
  temperature : Option CPUTemperature := none
  throttle : Option CPUThrottleStatus := none
  power : Option CPUPower := none
  load_avg : Option CPULoadAverages := none
  context_switches_per_sec : Option ℚ := none
  interrupts_per_sec : Option ℚ := none
  top_processes : Option (List TopCPUProcess) := none

def CPUModel.valid (c : CPUModel) : Bool :=
  c.sample_interval_s.all (fun v => decide (0 ≤ v))
  && c.physical_cores.all (fun v => decide (1 ≤ v))
  && c.locial_cores.all (fun v => decide (1 ≤ v))
  && decide (0 ≤ c.usage_total_pct) && decide (c.usage_total_pct ≤ 100)
  && c.per_core.all (fun l => l.all CPUCoreUsage.valid)
  && c.frequency.all CPUFrequency.valid
  && c.temperature.all CPUTemperature.valid
  && c.throttle.all CPUThrottleStatus.valid
  && c.power.all CPUPower.valid
  && c.load_avg.all CPULoadAverages.valid
  && c.context_switches_per_sec.all (fun v => decide (0 ≤ v))
  && c.interrupts_per_sec.all (fun v => decide (0 ≤ v))
  && c.top_processes.all (fun l => l.all TopCPUProcess.valid)

/-! ### Memory panel -/

structure SwapStats where
  total_bytes : ℤ
  used_bytes : ℤ
  usage_pct : Option ℚ := none
  swap_in_per_sec : Option ℚ := none
  swap_out_per_sec : Option ℚ := none

def SwapStats.valid (s : SwapStats) : Bool :=
  decide (0 ≤ s.total_bytes) && decide (0 ≤ s.used_bytes)
  && s.usage_pct.all (fun v => decide (0 ≤ v) && decide (v ≤ 100))
  && s.swap_in_per_sec.all (fun v => decide (0 ≤ v))
  && s.swap_out_per_sec.all (fun v => decide (0 ≤ v))

structure PressureStatus where
  instant : Option String := none
  score : Option ℚ := none

def PressureStatus.valid (p : PressureStatus) : Bool :=
  p.instant.all (fun v => pressureInstantValues.contains v)
  && p.score.all (fun v => decide (0 ≤ v))

structure FaultStats where
  soft_per_sec : Option ℚ := none
  hard_per_sec : Option ℚ := none

def FaultStats.valid (f : FaultStats) : Bool :=
  f.soft_per_sec.all (fun v => decide (0 ≤ v))
  && f.hard_per_sec.all (fun v => decide (0 ≤ v))

structure WindowsRAMExtras where
  commit_bytes : Option ℚ := none
  commit_limit_bytes : Option ℤ := none
  paged_pool_bytes : Option ℤ := none
  nonpaged_pool_bytes : Option ℤ := none

def WindowsRAMExtras.valid (w : WindowsRAMExtras) : Bool :=
  w.commit_bytes.all (fun v => decide (0 ≤ v))
  && w.commit_limit_bytes.all (fun v => decide (0 ≤ v))
  && w.paged_pool_bytes.all (fun v => decide (0 ≤ v))
  && w.nonpaged_pool_bytes.all (fun v => decide (0 ≤ v))

structure LinuxRAMExtras where
  buffers_bytes : Option ℤ := none
  slab_bytes : Option ℤ := none
  psi_mem_some : Option ℚ := none
  psi_mem_full : Option ℚ := none
  thp_enabled : Option Bool := none
  zswap_in_use_bytes : Option ℤ := none
  zram_in_use_bytes : Option ℤ := none

def LinuxRAMExtras.valid (l : LinuxRAMExtras) : Bool :=
  l.buffers_bytes.all (fun v => decide (0 ≤ v))
  && l.slab_bytes.all (fun v => decide (0 ≤ v))
  && l.psi_mem_some.all (fun v => decide (0 ≤ v))
  && l.psi_mem_full.all (fun v => decide (0 ≤ v))
  && l.zswap_in_use_bytes.all (fun v => decide (0 ≤ v))
  && l.zram_in_use_bytes.all (fun v => decide (0 ≤ v))

structure MacOSRAMExtras where
  wired_bytes : Option ℤ := none

def MacOSRAMExtras.valid (m : MacOSRAMExtras) : Bool :=
  m.wired_bytes.all (fun v => decide (0 ≤ v))

structure PlatformRAMExtras where
  windows : Option WindowsRAMExtras := none
  linux : Option LinuxRAMExtras := none
  macos : Option MacOSRAMExtras := none

def PlatformRAMExtras.valid (p : PlatformRAMExtras) : Bool :=
  p.windows.all WindowsRAMExtras.valid
  && p.linux.all LinuxRAMExtras.valid
  && p.macos.all MacOSRAMExtras.valid

structure TopMemoryProcess where
  pid : ℤ
  name : String
  rss_bytes : ℤ
  share_pct : Option ℚ := none
  hard_faults_per_sec : Option ℚ := none

def TopMemoryProcess.valid (p : TopMemoryProcess) : Bool :=
  decide (0 ≤ p.rss_bytes)
  && p.share_pct.all (fun v => decide (0 ≤ v) && decide (v ≤ 100))
  && p.hard_faults_per_sec.all (fun v => decide (0 ≤ v))

/-- Source `class RAMModel` (field names as in the source, including the
`kernal_bytes` spelling). -/
structure RAMModel where
  timestamp : ℤ := 0
  sample_interval_s : Option ℚ := none
  total_bytes : ℤ
  used_effective_bytes : ℤ
  available_bytes : ℤ
  usage_pct : ℚ
  cache_bytes : Option ℤ := none
  kernal_bytes : Option ℤ := none
  compressed_bytes : Option ℤ := none
  swap : Option SwapStats := none
  pressure : Option PressureStatus := none
  faults : Option FaultStats := none
  platform : Option PlatformRAMExtras := none
  top_processes : Option (List TopMemoryProcess) := none

def RAMModel.valid (r : RAMModel) : Bool :=
  r.sample_interval_s.all (fun v => decide (0 ≤ v))
  && decide (0 ≤ r.total_bytes) && decide (0 ≤ r.used_effective_bytes)
  && decide (0 ≤ r.available_bytes)
  && decide (0 ≤ r.usage_pct) && decide (r.usage_pct ≤ 100)
  && r.cache_bytes.all (fun v => decide (0 ≤ v))
  && r.kernal_bytes.all (fun v => decide (0 ≤ v))
  && r.compressed_bytes.all (fun v => decide (0 ≤ v))
  && r.swap.all SwapStats.valid
  && r.pressure.all PressureStatus.valid
  && r.faults.all FaultStats.valid
  && r.platform.all PlatformRAMExtras.valid
  && r.top_processes.all (fun l => l.all TopMemoryProcess.valid)

/-! ### Storage panel -/

structure DiskPartition where
  device : String
  mount_point : String
  fs_type : String
  total_bytes : ℤ
  used_bytes : ℤ
  free_bytes : ℤ
  usage_pct : Option ℚ := none
  read_only : Option Bool := none

def DiskPartition.valid (p : DiskPartition) : Bool :=
  filesystemTypeValues.contains p.fs_type
  && decide (0 ≤ p.total_bytes) && decide (0 ≤ p.used_bytes) && decide (0 ≤ p.free_bytes)
  && p.usage_pct.all (fun v => decide (0 ≤ v) && decide (v ≤ 100))

structure DiskIOStats where
  device : String
  read_bytes_per_sec : Option ℚ := none
  write_bytes_per_sec : Option ℚ := none
  read_iops : Option ℚ := none
  write_iops : Option ℚ := none
  avg_read_ms : Option ℚ := none
  avg_write_ms : Option ℚ := none

def DiskIOStats.valid (d : DiskIOStats) : Bool :=
  d.read_bytes_per_sec.all (fun v => decide (0 ≤ v))
  && d.write_bytes_per_sec.all (fun v => decide (0 ≤ v))
  && d.read_iops.all (fun v => decide (0 ≤ v))
  && d.write_iops.all (fun v => decide (0 ≤ v))
  && d.avg_read_ms.all (fun v => decide (0 ≤ v))
  && d.avg_write_ms.all (fun v => decide (0 ≤ v))

structure SmartAttribute where
  id : Option ℤ := none
  name : String
  value : Option ℚ := none
  worst : Option ℚ := none
  threshold : Option ℚ := none
  raw : Option String := none
  failed : Option Bool := none

/-- No field of `SmartAttribute` carries a constraint. -/
def SmartAttribute.valid (_ : SmartAttribute) : Bool := true

structure DiskHealth where
  device : String
  smart_overall_pass : Option Bool := none
  temperature_c : Option ℚ := none
  attributes : Option (List SmartAttribute) := none

def DiskHealth.valid (d : DiskHealth) : Bool :=
  d.attributes.all (fun l => l.all SmartAttribute.valid)

/-- Source `class StorageModel`: `partitions` is required, `io` and `health`
are optional lists. -/
structure StorageModel where
  timestamp : ℤ := 0
  partitions : List DiskPartition
  io : Option (List DiskIOStats) := none
  health : Option (List DiskHealth) := none

def StorageModel.valid : StorageModel → Bool
  | ⟨_, partitions, iostats, health⟩ =>
      partitions.all DiskPartition.valid
      && iostats.all (fun l => l.all DiskIOStats.valid)
      && health.all (fun l => l.all DiskHealth.valid)

/-! ### Network panel -/

structure AddressInfo where
  ipv4 : Option String := none
  ipv6 : Option String := none
  mac : Option String := none

/-- No field of `AddressInfo` carries a constraint. -/
def AddressInfo.valid (_ : AddressInfo) : Bool := true

structure InterfaceCounters where
  bytes_sent_per_sec : Option ℚ := none
  bytes_recv_per_sec : Option ℚ := none
  packets_sent_per_sec : Option ℚ := none
  packets_recv_per_sec : Option ℚ := none
  err_in_per_sec : Option ℚ := none
  err_out_per_sec : Option ℚ := none
  drop_in_per_sec : Option ℚ := none
  drop_out_per_sec : Option ℚ := none

def InterfaceCounters.valid (c : InterfaceCounters) : Bool :=
  c.bytes_sent_per_sec.all (fun v => decide (0 ≤ v))
  && c.bytes_recv_per_sec.all (fun v => decide (0 ≤ v))
  && c.packets_sent_per_sec.all (fun v => decide (0 ≤ v))
  && c.packets_recv_per_sec.all (fun v => decide (0 ≤ v))
  && c.err_in_per_sec.all (fun v => decide (0 ≤ v))
  && c.err_out_per_sec.all (fun v => decide (0 ≤ v))
  && c.drop_in_per_sec.all (fun v => decide (0 ≤ v))
  && c.drop_out_per_sec.all (fun v => decide (0 ≤ v))

/-- Source `class NetworkInterface`.  The source line `addresses = AddressInfo`
has no type annotation, so pydantic treats it as a class attribute, not a
field; it is omitted here. -/
structure NetworkInterface where
  name : String
  type : String := "unknown"
  is_up : Bool
  speed_mbps : Option ℚ := none
  duplex : Option String := some ("unknown")
  mtu : Option ℤ := none
  counters : Option InterfaceCounters := none

def NetworkInterface.valid (n : NetworkInterface) : Bool :=
  ifaceTypeValues.contains n.type
  && n.speed_mbps.all (fun v => decide (0 ≤ v))
  && n.duplex.all (fun v => duplexValues.contains v)
  && n.mtu.all (fun v => decide (0 ≤ v))
  && n.counters.all InterfaceCounters.valid

/-- Source `class ConnectionStat`: note that `status` is a plain optional
string, not a `Literal`, so no membership constraint applies to it. -/
structure ConnectionStat where
  protocol : String := "tcp"
  local_addr : Option (String × ℤ) := none
  remote_addr : Option (String × ℤ) := none
  status : Option String := none
  pid : Option ℤ := none

def ConnectionStat.valid (c : ConnectionStat) : Bool :=
  protocolValues.contains c.protocol

structure LatencyProbe where
  name : String
  target : String
  rtt_ms : Option ℚ := none
  packet_loss_pct : Option ℚ := none

def LatencyProbe.valid (p : LatencyProbe) : Bool :=
  p.rtt_ms.all (fun v => decide (0 ≤ v))
  && p.packet_loss_pct.all (fun v => decide (0 ≤ v) && decide (v ≤ 100))

structure NetworkModel where
  timestamp : ℤ := 0
  interfaces : List NetworkInterface
  connections_sample : Option (List ConnectionStat) := none
  probes : Option (List LatencyProbe) := none

def NetworkModel.valid (n : NetworkModel) : Bool :=
  n.interfaces.all NetworkInterface.valid
  && n.connections_sample.all (fun l => l.all ConnectionStat.valid)
  && n.probes.all (fun l => l.all LatencyProbe.valid)

/-! ### Hardware panel -/

structure TempSensorReading where
  name : String
  temperature_c : Option ℚ := none

/-- No field of `TempSensorReading` carries a constraint. -/
def TempSensorReading.valid (_ : TempSensorReading) : Bool := true

structure FanReading where
  name : String
  rpm : Option ℤ := none

def FanReading.valid (f : FanReading) : Bool :=
  f.rpm.all (fun v => decide (0 ≤ v))

structure BatteryStatus where
  present : Bool
  percent : Option ℚ := none
  charge_watts : Option ℚ := none
  discharge_watts : Option ℚ := none
  is_charging : Option Bool := none
  cycles : Option ℤ := none
  health_pct : Option ℚ := none
  design_capacity_wh : Option ℚ := none
  full_charge_capacity_wh : Option ℚ := none

/-- Field `health_pct` carries only `ge=0.0` in the source (no upper bound). -/
def BatteryStatus.valid (b : BatteryStatus) : Bool :=
  b.percent.all (fun v => decide (0 ≤ v) && decide (v ≤ 100))
  && b.charge_watts.all (fun v => decide (0 ≤ v))
  && b.discharge_watts.all (fun v => decide (0 ≤ v))
  && b.cycles.all (fun v => decide (0 ≤ v))
  && b.health_pct.all (fun v => decide (0 ≤ v))
  && b.design_capacity_wh.all (fun v => decide (0 ≤ v))
  && b.full_charge_capacity_wh.all (fun v => decide (0 ≤ v))

structure GPUProcess where
  pid : ℤ
  name : String
  gpu_util_pct : Option ℚ := none
  vram_bytes : Option ℤ := none

def GPUProcess.valid (g : GPUProcess) : Bool :=
  g.gpu_util_pct.all (fun v => decide (0 ≤ v) && decide (v ≤ 100))
  && g.vram_bytes.all (fun v => decide (0 ≤ v))

structure GPUModel where
  name : String
  vendor : Option String := none
  driver_version : Option String := none
  usage_pct : Option ℚ := none
  vram_total_bytes : Option ℤ := none
  vram_used_bytes : Option ℤ := none
  temperature_c : Option ℚ := none
  power_watts : Option ℚ := none
  processes : Option (List GPUProcess) := none

def GPUModel.valid (g : GPUModel) : Bool :=
  g.usage_pct.all (fun v => decide (0 ≤ v) && decide (v ≤ 100))
  && g.vram_total_bytes.all (fun v => decide (0 ≤ v))
  && g.vram_used_bytes.all (fun v => decide (0 ≤ v))
  && g.power_watts.all (fun v => decide (0 ≤ v))
  && g.processes.all (fun l => l.all GPUProcess.valid)

structure HardwareHealthModel where
  timestamp : ℤ := 0
  temperatures : Option (List TempSensorReading) := none
  fans : Option (List FanReading) := none
  battery : Option BatteryStatus := none
  gpus : Option (List GPUModel) := none

def HardwareHealthModel.valid (h : HardwareHealthModel) : Bool :=
  h.temperatures.all (fun l => l.all TempSensorReading.valid)
  && h.fans.all (fun l => l.all FanReading.valid)
  && h.battery.all BatteryStatus.valid
  && h.gpus.all (fun l => l.all GPUModel.valid)

/-! ### Processes, services, boot -/

structure TopIOProcess where
  pid : ℤ
  name : String
  read_bytes_per_sec : Option ℚ := none
  write_bytes_per_sec : Option ℚ := none

def TopIOProcess.valid (p : TopIOProcess) : Bool :=
  p.read_bytes_per_sec.all (fun v => decide (0 ≤ v))
  && p.write_bytes_per_sec.all (fun v => decide (0 ≤ v))

/-- Source `class ProcessSnapshot` (field names as in the source, including the
`runnning` spelling). -/
structure ProcessSnapshot where
  total_processes : Option ℤ := none
  runnning : Option ℤ := none
  sleeping : Option ℤ := none
  stopped : Option ℤ := none
  zombies : Option ℤ := none
  top_cpu : Option (List TopCPUProcess) := none
  top_mem : Option (List TopMemoryProcess) := none
  top_io : Option (List TopIOProcess) := none

def ProcessSnapshot.valid : ProcessSnapshot → Bool
  | ⟨total, running, sleeping, stopped, zombies, tcpu, tmem, tio⟩ =>
      total.all (fun v => decide (0 ≤ v))
      && running.all (fun v => decide (0 ≤ v))
      && sleeping.all (fun v => decide (0 ≤ v))
      && stopped.all (fun v => decide (0 ≤ v))
      && zombies.all (fun v => decide (0 ≤ v))
      && tcpu.all (fun l => l.all TopCPUProcess.valid)
      && tmem.all (fun l => l.all TopMemoryProcess.valid)
      && tio.all (fun l => l.all TopIOProcess.valid)

structure ServiceStatus where
  name : String
  state : String
  uptime_s : Option ℚ := none
  restart_count : Option ℤ := none

def ServiceStatus.valid (s : ServiceStatus) : Bool :=
  serviceStateValues.contains s.state
  && s.uptime_s.all (fun v => decide (0 ≤ v))
  && s.restart_count.all (fun v => decide (0 ≤ v))

structure ServicesModel where
  timestamp : ℤ := 0
  critical : Option (List ServiceStatus) := none
  others : Option (List ServiceStatus) := none

def ServicesModel.valid (s : ServicesModel) : Bool :=
  s.critical.all (fun l => l.all ServiceStatus.valid)
  && s.others.all (fun l => l.all ServiceStatus.valid)

structure BootInfo where
  last_boot_time : Option ℤ := none
  uptime_s : Option ℚ := none
  previous_boot_times : Option (List ℤ) := none

def BootInfo.valid (b : BootInfo) : Bool :=
  b.uptime_s.all (fun v => decide (0 ≤ v))

/-! ### Logs, crashes, security -/

structure LogEvent where
  time : ℤ
  source : String
  severity : String
  code : Option String := none
  message : String
  count : Option ℤ := none

def LogEvent.valid (e : LogEvent) : Bool :=
  severityValues.contains e.severity
  && e.count.all (fun v => decide (1 ≤ v))

structure LogsModel where
  timestamp : ℤ := 0
  recent_critical : Option (List LogEvent) := none
  recent_warnings : Option (List LogEvent) := none

def LogsModel.valid (l : LogsModel) : Bool :=
  l.recent_critical.all (fun es => es.all LogEvent.valid)
  && l.recent_warnings.all (fun es => es.all LogEvent.valid)

structure CrashRecord where
  time : ℤ
  component : String
  type : String
  exit_code : Option String := none
  dump_path : Option String := none

def CrashRecord.valid (c : CrashRecord) : Bool :=
  crashTypeValues.contains c.type

/-- Source `class CrashMonitorModel`: its `timestamp` has no default in the
source. -/
structure CrashMonitorModel where
  timestamp : ℤ
  recent : Option (List CrashRecord) := none

def CrashMonitorModel.valid (c : CrashMonitorModel) : Bool :=
  c.recent.all (fun l => l.all CrashRecord.valid)

/-- Source `class SecurityFinding` (field names as in the source, including the
`tite` spelling). -/
structure SecurityFinding where
  time : ℤ
  tite : String
  severity : String
  details : Option String := none

def SecurityFinding.valid (f : SecurityFinding) : Bool :=
  severityValues.contains f.severity

structure SecurityModel where
  timestamp : ℤ := 0
  firewall : String := "unknown"
  av : String := "unknown"
  av_definitions_age_days : Option ℚ := none
  suspicious_processes : Option (List ℤ) := none
  findings : Option (List SecurityFinding) := none

def SecurityModel.valid (s : SecurityModel) : Bool :=
  firewallStateValues.contains s.firewall
  && avStateValues.contains s.av
  && s.av_definitions_age_days.all (fun v => decide (0 ≤ v))
  && s.findings.all (fun l => l.all SecurityFinding.valid)

/-! ### Virtualization, remote, alerts -/

/-- Source `class ContainerStat`: note that `state` is a plain optional string,
not a `Literal`. -/
structure ContainerStat where
  id : String
  name : Option String := none
  cpu_pct : Option ℚ := none
  mem_bytes : Option ℤ := none
  mem_limit_bytes : Option ℤ := none
  net_rx_bytes_per_sec : Option ℚ := none
  net_tx_bytes_per_sec : Option ℚ := none
  state : Option String := none

def ContainerStat.valid (c : ContainerStat) : Bool :=
  c.cpu_pct.all (fun v => decide (0 ≤ v) && decide (v ≤ 100))
  && c.mem_bytes.all (fun v => decide (0 ≤ v))
  && c.mem_limit_bytes.all (fun v => decide (0 ≤ v))
  && c.net_rx_bytes_per_sec.all (fun v => decide (0 ≤ v))
  && c.net_tx_bytes_per_sec.all (fun v => decide (0 ≤ v))

structure VMStat where
  name : String
  vcpu_count : Option ℤ := none
  cpu_pct : Option ℚ := none
  mem_bytes : Option ℤ := none
  mem_limit_bytes : Option ℤ := none
  state : Option String := none

def VMStat.valid (v : VMStat) : Bool :=
  v.vcpu_count.all (fun n => decide (1 ≤ n))
  && v.cpu_pct.all (fun p => decide (0 ≤ p) && decide (p ≤ 100))
  && v.mem_bytes.all (fun n => decide (0 ≤ n))
  && v.mem_limit_bytes.all (fun n => decide (0 ≤ n))

/-- Source `class VirtualizationModel` (the capitalised `Containers` field name
is as in the source). -/
structure VirtualizationModel where
  timestamp : ℤ := 0
  Containers : Option (List ContainerStat) := none
  vms : Option (List VMStat) := none
  hypervisor : Option String := none

def VirtualizationModel.valid (v : VirtualizationModel) : Bool :=
  v.Containers.all (fun l => l.all ContainerStat.valid)
  && v.vms.all (fun l => l.all VMStat.valid)

structure EndpointHealth where
  name : String
  url_or_host : String
  status : String := "unknown"
  latency_ms : Option ℚ := none
  last_ok : Option ℤ := none
  http_status : Option ℤ := none
  error : Option String := none

def EndpointHealth.valid (e : EndpointHealth) : Bool :=
  endpointStatusValues.contains e.status
  && e.latency_ms.all (fun v => decide (0 ≤ v))

structure RemoteConnectivityModel where
  timestamp : ℤ := 0
  endpoints : Option (List EndpointHealth) := none

def RemoteConnectivityModel.valid (r : RemoteConnectivityModel) : Bool :=
  r.endpoints.all (fun l => l.all EndpointHealth.valid)

structure Alert where
  time : ℤ := 0
  scope : String
  severity : String
  title : String
  details : Option String := none

def Alert.valid (a : Alert) : Bool :=
  alertScopeValues.contains a.scope
  && severityValues.contains a.severity

/-! ### Top-level snapshot -/

structure HostInfo where
  hostname : Option String := none
  os : String := "unknown"
  os_version : Option String := none
  kernel_version : Option String := none
  arch : Option String := none
  serial_or_uuid : Option String := none
  tags : Option (List (String × String)) := none

def HostInfo.valid (h : HostInfo) : Bool :=
  osTypeValues.contains h.os

/-- Source `class SystemHealthSnapShot`: collection metadata, required host
identity, thirteen optional domain panels and the optional derived alert
list. -/
structure SystemHealthSnapShot where
  collected_at : ℤ := 0
  sample_interval_s : Option ℚ := none
  host : HostInfo
  cpu : Option CPUModel := none
  ram : Option RAMModel := none
  storage : Option StorageModel := none
  network : Option NetworkModel := none
  hardware : Option HardwareHealthModel := none
  processes : Option ProcessSnapshot := none
  services : Option ServicesModel := none
  boot : Option BootInfo := none
  logs : Option LogsModel := none
  crash : Option CrashMonitorModel := none
  security : Option SecurityModel := none
  virtualization : Option VirtualizationModel := none
  remote : Option RemoteConnectivityModel := none
  alerts : Option (List Alert) := none

def SystemHealthSnapShot.valid (s : SystemHealthSnapShot) : Bool :=
  s.sample_interval_s.all (fun v => decide (0 ≤ v))
  && HostInfo.valid s.host
  && s.cpu.all CPUModel.valid
  && s.ram.all RAMModel.valid
  && s.storage.all StorageModel.valid
  && s.network.all NetworkModel.valid
  && s.hardware.all HardwareHealthModel.valid
  && s.processes.all ProcessSnapshot.valid
  && s.services.all ServicesModel.valid
  && s.boot.all BootInfo.valid
  && s.logs.all LogsModel.valid
  && s.crash.all CrashMonitorModel.valid
  && s.security.all SecurityModel.valid
  && s.virtualization.all VirtualizationModel.valid
  && s.remote.all RemoteConnectivityModel.valid
  && s.alerts.all (fun l => l.all Alert.valid)

/-! ## Claim theorems for the snapshot contract -/

theorem listAll_and (l : List α) (p q : α → Bool) :
    (l.all fun x => p x && q x) = (l.all p && l.all q) := by
  induction l with
  | nil => rfl
  | cons x xs ih =>
      simp only [List.all_cons, ih]
      cases p x <;> cases q x <;> cases xs.all p <;> cases xs.all q <;> rfl

theorem optionAll_and (o : Option α) (p q : α → Bool) :
    (o.all fun x => p x && q x) = (o.all p && o.all q) := by
  cases o <;> simp [Option.all]

theorem optionAll_none (p : α → Bool) : (none : Option α).all p = true := rfl

/-- The percentage fields of the CPU panel (the `le=100`-bounded fields):
`usage_total_pct`, each per-core `usage_pct`, each top-process `cpu_pct`;
this predicate says they all lie in [0,100]. -/
def CPUModel.pctFieldsInRange (c : CPUModel) : Bool :=
  (decide (0 ≤ c.usage_total_pct) && decide (c.usage_total_pct ≤ 100))
  && c.per_core.all (fun l => l.all fun u =>
      decide (0 ≤ u.usage_pct) && decide (u.usage_pct ≤ 100))
  && c.top_processes.all (fun l => l.all fun p =>
      decide (0 ≤ p.cpu_pct) && decide (p.cpu_pct ≤ 100))

/-- All remaining (non-percentage) constraints of the CPU panel. -/
def CPUModel.otherFieldsOK (c : CPUModel) : Bool :=
  c.sample_interval_s.all (fun v => decide (0 ≤ v))
  && c.physical_cores.all (fun v => decide (1 ≤ v))
  && c.locial_cores.all (fun v => decide (1 ≤ v))
  && c.per_core.all (fun l => l.all fun u => decide (0 ≤ u.core_index))
  && c.frequency.all CPUFrequency.valid
  && c.temperature.all CPUTemperature.valid
  && c.throttle.all CPUThrottleStatus.valid
  && c.power.all CPUPower.valid
  && c.load_avg.all CPULoadAverages.valid
  && c.context_switches_per_sec.all (fun v => decide (0 ≤ v))
  && c.interrupts_per_sec.all (fun v => decide (0 ≤ v))
  && c.top_processes.all (fun l => l.all fun p =>
      p.user_time_s.all (fun v => decide (0 ≤ v))
      && p.system_time_s.all (fun v => decide (0 ≤ v)))

set_option maxHeartbeats 1000000 in
theorem cpuModel_valid_split (c : CPUModel) :
    CPUModel.valid c = (CPUModel.otherFieldsOK c && CPUModel.pctFieldsInRange c) := by
  unfold CPUModel.valid CPUModel.otherFieldsOK CPUModel.pctFieldsInRange
    CPUCoreUsage.valid TopCPUProcess.valid
  simp only [Bool.and_assoc, listAll_and, optionAll_and]
  simp only [Bool.and_comm, Bool.and_left_comm, Bool.and_assoc]

/-- C5: pydantic validation of the CPU panel rejects every candidate with
a percentage field outside [0,100], and accepts a candidate whose
percentage fields all lie in [0,100] provided its remaining (non-
percentage) constraints hold — so a rejected candidate differing from an
accepted one only in a percentage field is rejected exactly for that
field. -/
theorem cpu_percentage_validation (c : CPUModel) :
    (CPUModel.pctFieldsInRange c = false → CPUModel.valid c = false)
    ∧ (CPUModel.otherFieldsOK c = true → CPUModel.pctFieldsInRange c = true →
        CPUModel.valid c = true) := by
  constructor
  · intro h
    rw [cpuModel_valid_split, h, Bool.and_false]
  · intro h1 h2
    rw [cpuModel_valid_split, h1, h2]
    rfl

theorem cpu_percentage_validation_witness :
    CPUModel.valid { usage_total_pct := 101 } = false
    ∧ CPUModel.valid { usage_total_pct := 55 } = true :=
  ⟨(cpu_percentage_validation _).1 (by decide),
   (cpu_percentage_validation _).2 (by decide) (by decide)⟩

/-- The metadata conjuncts of the snapshot validator: the sampling
interval bound and the host-identity record's constraints. -/
def SystemHealthSnapShot.metaOK (s : SystemHealthSnapShot) : Bool :=
  s.sample_interval_s.all (fun v => decide (0 ≤ v)) && HostInfo.valid s.host

/-- The panel conjuncts of the snapshot validator: every present optional
panel satisfies its own constraints (an absent panel contributes `true`). -/
def SystemHealthSnapShot.panelsOK (s : SystemHealthSnapShot) : Bool :=
  s.cpu.all CPUModel.valid
  && s.ram.all RAMModel.valid
  && s.storage.all StorageModel.valid
  && s.network.all NetworkModel.valid
  && s.hardware.all HardwareHealthModel.valid
  && s.processes.all ProcessSnapshot.valid
  && s.services.all ServicesModel.valid
  && s.boot.all BootInfo.valid
  && s.logs.all LogsModel.valid
  && s.crash.all CrashMonitorModel.valid
  && s.security.all SecurityModel.valid
  && s.virtualization.all VirtualizationModel.valid
  && s.remote.all RemoteConnectivityModel.valid
  && s.alerts.all (fun l => l.all Alert.valid)

/-- Erase every optional domain panel (and the derived alert list) from a
snapshot, leaving the metadata and host identity. -/
def SystemHealthSnapShot.stripPanels (s : SystemHealthSnapShot) : SystemHealthSnapShot :=
  { s with
    cpu := none
    ram := none
    storage := none
    network := none
    hardware := none
    processes := none
    services := none
    boot := none
    logs := none
    crash := none
    security := none
    virtualization := none
    remote := none
    alerts := none }

theorem snapshot_valid_split (s : SystemHealthSnapShot) :
    SystemHealthSnapShot.valid s
      = (SystemHealthSnapShot.metaOK s && SystemHealthSnapShot.panelsOK s) := by
  unfold SystemHealthSnapShot.valid SystemHealthSnapShot.metaOK SystemHealthSnapShot.panelsOK
  simp only [Bool.and_assoc]

/-- C6: a snapshot whose required metadata constraints hold and whose
present panels satisfy their constraints is accepted; it stays accepted
when the storage panel is absent, and when every optional panel is
absent.  Absence of a panel is never a validation error. -/
theorem snapshot_absent_panels_accepted (s : SystemHealthSnapShot)
    (hmeta : SystemHealthSnapShot.metaOK s = true)
    (hpanels : SystemHealthSnapShot.panelsOK s = true) :
    SystemHealthSnapShot.valid s = true
    ∧ SystemHealthSnapShot.valid { s with storage := none } = true
    ∧ SystemHealthSnapShot.valid (SystemHealthSnapShot.stripPanels s) = true := by
  have hsplit : ∀ t : SystemHealthSnapShot, SystemHealthSnapShot.metaOK t = true →
      SystemHealthSnapShot.panelsOK t = true → SystemHealthSnapShot.valid t = true := by
    intro t h1 h2
    rw [snapshot_valid_split, h1, h2]
    rfl
  unfold SystemHealthSnapShot.panelsOK at hpanels
  simp only [Bool.and_eq_true] at hpanels
  refine ⟨hsplit s hmeta ?_, hsplit { s with storage := none } hmeta ?_,
    hsplit (SystemHealthSnapShot.stripPanels s) hmeta ?_⟩
  · unfold SystemHealthSnapShot.panelsOK
    simp only [Bool.and_eq_true]
    tauto
  · unfold SystemHealthSnapShot.panelsOK
    dsimp only
    simp only [Bool.and_eq_true, optionAll_none]
    tauto
  · unfold SystemHealthSnapShot.stripPanels SystemHealthSnapShot.panelsOK
    dsimp only
    simp [optionAll_none]

theorem snapshot_absent_panels_accepted_witness :
    SystemHealthSnapShot.metaOK { host := {} } = true
    ∧ SystemHealthSnapShot.valid { host := {} } = true :=
  ⟨by decide, (snapshot_absent_panels_accepted { host := {} } (by decide) (by decide)).1⟩

/-- C8 counterexample: `Severity` is a closed enumeration with no
`unknown`/`other` member, `Alert.scope` likewise; `ConnectionStat.status`
is a category-like field that is an unconstrained optional string — a
value outside every enumeration is accepted; and `PressureStatus.instant`
admits null (`None`) in place of a category value. -/
theorem categorical_fields_counterexample :
    ("unknown" ∉ severityValues ∧ "other" ∉ severityValues)
    ∧ ConnectionStat.valid
        { protocol := "tcp", status := some ("NOT A MEMBER OF ANY ENUMERATION") } = true
    ∧ PressureStatus.valid { instant := none, score := none } = true
    ∧ ("unknown" ∉ pressureInstantValues ∧ "other" ∉ pressureInstantValues
        ∧ "unknown" ∉ alertScopeValues ∧ "other" ∉ alertScopeValues) := by
  decide

/-- C8 (amended): fields declared with `Literal` types are closed
enumerations (out-of-enumeration values are rejected), and most of them
include an explicit `unknown`/`other` member — but `Severity`,
`PressureStatus.instant` and `Alert.scope` have no such fallback,
`ConnectionStat.status` (and container/VM `state`) are unconstrained
optional strings, and optional categorical fields admit null. -/
theorem categorical_fields_amended :
    ("unknown" ∈ serviceStateValues ∧ "unknown" ∈ firewallStateValues
      ∧ "unknown" ∈ avStateValues ∧ "unknown" ∈ osTypeValues
      ∧ "unknown" ∈ ifaceTypeValues ∧ "unknown" ∈ duplexValues
      ∧ "unknown" ∈ endpointStatusValues
      ∧ "other" ∈ protocolValues ∧ "other" ∈ filesystemTypeValues
      ∧ "other" ∈ throttleReasonValues ∧ "other" ∈ crashTypeValues)
    ∧ ConnectionStat.valid { protocol := "sctp" } = false
    ∧ LogEvent.valid { time := 0, source := "kern", severity := "fatal", message := "m" } = false
    ∧ SecurityModel.valid { firewall := "on" } = false := by
  decide

end SystemHealthDashboard
